import Mathlib

/-!
Shallow embedding of the temperature-monitoring core of the
Sipeed-NanoCluster-Server repository (file src/server_temperature_monitor.py,
class TemperatureMonitor), together with proofs of the specified properties.

Modelling conventions:
* Python numbers are embedded exactly: temperatures reported by nodes are
  rationals (ℚ), fan-configuration values are integers (ℤ), matching the
  integer values of the default configuration created by
  server_config_manager.py (min_temp 40, max_temp 70, min_speed 30,
  max_speed 100).  Python float arithmetic is modelled as exact rational
  arithmetic.
* Python `int(x)` truncates toward zero; this is `ratTrunc` below.
* The insertion-ordered Python dict `self.temperature_data` is an
  association list `Store` with unique keys; assignment `d[k] = v` updates
  the existing key in place or appends a new key at the end (`dictSet`).
* The sentinel `float("-inf")` used by `_set_fan_speed_based_on_temperature`
  is the `none` value of `Option ℚ`: every temperature compares above it,
  and it compares below `min_temp`, exactly as minus infinity does.
-/

namespace NanoCluster

/-- Truncation of a rational toward zero: the semantics of Python `int(x)`
applied to a number.  `Int.tdiv` is integer division truncating toward zero,
and the denominator of a `ℚ` is positive. -/
def ratTrunc (q : ℚ) : ℤ := q.num.tdiv q.den

/-- A node descriptor as read from configuration (one element of the
`nodes` list in config.yaml). -/
structure Node where
  name : String
  slot : ℤ
  ip : String
  port : ℤ
  enabled : Bool
deriving DecidableEq

/-- One stored temperature reading, the dict appended by
`_store_temperature_data`: keys `timestamp`, `temperature`, `slot`. -/
structure Sample where
  timestamp : String
  temperature : ℚ
  slot : ℤ
deriving DecidableEq

/-- The monitor state `self.temperature_data`: a Python dict from node name
to a list of samples, modelled as an insertion-ordered association list. -/
abbrev Store := List (String × List Sample)

/-- Python `d[k]` / `k in d` on the association list: find the (unique)
entry with the given key. -/
def lookupStore : Store → String → Option (List Sample)
  | [], _ => none
  | (k, v) :: rest, n => if k = n then some v else lookupStore rest n

/-- Python dict assignment `d[k] = v`: replace the value of an existing key
in place, or append the new key at the end. -/
def dictSet : Store → String → List Sample → Store
  | [], k, v => [(k, v)]
  | (k', v') :: rest, k, v =>
      if k' = k then (k, v) :: rest else (k', v') :: dictSet rest k v

/-- Embedding of `TemperatureMonitor._store_temperature_data` (lines
111-130): ensure the node has an entry, append a sample carrying the given
timestamp and the node slot, then keep only the last 100 entries
(`data[-100:]`, i.e. drop `length - 100` elements from the front). -/
def store_temperature_data (store : Store) (node : Node) (timestamp : String)
    (temperature : ℚ) : Store :=
  let store0 := if (lookupStore store node.name).isSome then store
                else dictSet store node.name []
  let hist := (lookupStore store0 node.name).getD []
  let hist1 := hist ++ [⟨timestamp, temperature, node.slot⟩]
  let hist2 := if hist1.length > 100 then hist1.drop (hist1.length - 100)
               else hist1
  dictSet store0 node.name hist2

/-- A sequence of `_store_temperature_data` calls, applied in order. -/
def runRecords (store : Store) : List (Node × String × ℚ) → Store
  | [] => store
  | (n, ts, t) :: rest => runRecords (store_temperature_data store n ts t) rest

/-- The fan configuration dict (`get_fan_config`), with the values required
by `_set_fan_speed_based_on_temperature`. -/
structure FanConfig where
  gpio_pin : ℤ
  min_temp : ℤ
  max_temp : ℤ
  min_speed : ℤ
  max_speed : ℤ
deriving DecidableEq

/-- The scan of `_set_fan_speed_based_on_temperature` (lines 144-154):
starting from `current_max_temp = float("-inf")` (here `none`), visit every
entry of the store in order, skip empty histories, and replace the maximum
whenever the latest temperature of a node exceeds it.  Any temperature
exceeds minus infinity, hence the `none` branch always updates. -/
def current_max_temp (store : Store) : Option ℚ :=
  store.foldl
    (fun acc p =>
      match p.2.getLast? with
      | none => acc
      | some e =>
        match acc with
        | none => some e.temperature
        | some m => if m < e.temperature then some e.temperature else some m)
    none

/-- The speed computation of `_set_fan_speed_based_on_temperature` (lines
156-163) on the scanned maximum.  `none` stands for the untouched
`float("-inf")` sentinel, for which `current_max_temp < min_temp` holds, so
the first branch fires and yields `min_speed`.  In the interpolation branch
Python computes `int(min_speed + (max_speed - min_speed) *
(T - min_temp) / (max_temp - min_temp))`. -/
def compute_speed (fc : FanConfig) (T : Option ℚ) : ℤ :=
  match T with
  | none => fc.min_speed
  | some t =>
    if t < (fc.min_temp : ℚ) then fc.min_speed
    else if (fc.max_temp : ℚ) < t then fc.max_speed
    else ratTrunc ((fc.min_speed : ℚ) +
      ((fc.max_speed : ℚ) - (fc.min_speed : ℚ)) * (t - (fc.min_temp : ℚ)) /
        ((fc.max_temp : ℚ) - (fc.min_temp : ℚ)))

/-- The duty cycle emitted at line 167: `duty_cycle = int(speed * 10000)`.
The speed is an integer in every branch (the two clamp branches return the
integer configuration values, the middle branch applies `int`), so the
outer `int` is the identity and the duty is `speed * 10000`. -/
def compute_duty (fc : FanConfig) (T : Option ℚ) : ℤ :=
  compute_speed fc T * 10000

/-- The full `_set_fan_speed_based_on_temperature` pass over the store: the
duty-cycle value passed to `hardware_PWM(gpio_pin, 50, duty_cycle)`.  (The
`if not fan_config: return` guard at line 135 is config-missing handling,
outside this function, which receives a present configuration.) -/
def set_fan_speed_duty (fc : FanConfig) (store : Store) : ℤ :=
  compute_duty fc (current_max_temp store)

/-- One value of the result dict of `get_latest_temperatures`. -/
structure LatestEntry where
  temperature : ℚ
  timestamp : String
  slot : ℤ
deriving DecidableEq

/-- Embedding of `get_latest_temperatures` (lines 170-183): for every store
entry with a non-empty history, in store order, emit the node name mapped
to the fields of the last sample.  (Store keys are unique, so building the
Python result dict by assignment is this `filterMap`.) -/
def get_latest_temperatures (store : Store) : List (String × LatestEntry) :=
  store.filterMap (fun p =>
    (p.2.getLast?).map (fun e => (p.1, ⟨e.temperature, e.timestamp, e.slot⟩)))

/-- Python tail slice `l[-limit:]` for an arbitrary integer `limit`, as used
by `get_node_temperature_history`: slice start `-limit`; a negative start is
clamped to `max (len + start) 0`, a non-negative start to `min start len`;
the slice keeps everything from that position on. -/
def pyTailSlice (l : List Sample) (limit : ℤ) : List Sample :=
  let n : ℤ := l.length
  let start : ℤ := -limit
  let b : ℤ := if start < 0 then max (n + start) 0 else min start n
  l.drop b.toNat

/-- Embedding of `get_node_temperature_history` (lines 185-190): empty list
for an unknown node, otherwise the tail slice `data[-limit:]`. -/
def get_node_temperature_history (store : Store) (node_name : String)
    (limit : ℤ) : List Sample :=
  match lookupStore store node_name with
  | none => []
  | some l => pyTailSlice l limit

/-- The monitor fields driving the start/stop state machine (lines 16-18):
`is_running`, the stop event, and whether a monitor thread was spawned. -/
structure MonitorState where
  is_running : Bool
  stop_event_set : Bool
  has_thread : Bool
deriving DecidableEq

/-- Embedding of `start_monitoring` (lines 26-36): return unchanged when
already running; otherwise set `is_running`, clear the stop event and spawn
the monitor thread. -/
def start_monitoring (s : MonitorState) : MonitorState :=
  if s.is_running then s
  else { is_running := true, stop_event_set := false, has_thread := true }

/-- Embedding of `stop_monitoring` (lines 38-47): return unchanged when not
running; otherwise clear `is_running` and set the stop event (the
subsequent bounded `join` does not change these fields). -/
def stop_monitoring (s : MonitorState) : MonitorState :=
  if s.is_running then
    { is_running := false, stop_event_set := true, has_thread := s.has_thread }
  else s

/-- JSON values, the possible results of `response.json()`. -/
inductive Json where
  | null
  | bool (b : Bool)
  | num (q : ℚ)
  | str (s : String)
  | arr (elems : List Json)
  | obj (fields : List (String × Json))

/-- Python `data.get(key)` on a JSON object body (keys unique). -/
def jsonLookup : List (String × Json) → String → Option Json
  | [], _ => none
  | (k, v) :: rest, key => if k = key then some v else jsonLookup rest key

/-- The possible outcomes of the `requests.get` / `raise_for_status` /
`response.json()` sequence in `_poll_node_temperature`:
`requests.exceptions.Timeout`, `requests.exceptions.ConnectionError`, any
other `RequestException` (including the `HTTPError` that
`raise_for_status` raises on a non-2xx status), a body that is not valid
JSON (`response.json()` raises `ValueError`), or a decoded JSON body. -/
inductive HttpOutcome where
  | timeout
  | connError
  | requestError
  | invalidJson
  | success (body : Json)

/-- Python exceptions that `_poll_node_temperature` does not catch. -/
inductive PyError where
  | typeError
  | attributeError
deriving DecidableEq

/-- Embedding of `_poll_node_temperature` (lines 79-109).  The parameter
`pf` is the semantics of Python `float(s)` on a string: `some q` on a
parseable string, `none` for the `ValueError` case (which the handler at
line 107 catches).  The embedding returns `Except.ok` for a normal return
and `Except.error` when an exception escapes the function:
* the three `requests` failure outcomes and invalid JSON hit the `except`
  clauses at lines 98-109 and return `None`;
* a decoded body that is not a dict has no `.get` method, so
  `data.get("temperature")` raises an uncaught `AttributeError`;
* a missing or `null` field returns `None` (line 94-96);
* `float` of a number or bool succeeds, `float` of an unparseable string
  raises `ValueError` (caught, line 107), `float` of a list or dict raises
  an uncaught `TypeError`. -/
def poll_node_temperature (pf : String → Option ℚ) (outcome : HttpOutcome) :
    Except PyError (Option ℚ) :=
  match outcome with
  | .timeout => .ok none
  | .connError => .ok none
  | .requestError => .ok none
  | .invalidJson => .ok none
  | .success body =>
    match body with
    | .obj fields =>
      match jsonLookup fields ("temperature") with
      | none => .ok none
      | some .null => .ok none
      | some (.num q) => .ok (some q)
      | some (.bool b) => .ok (some (if b then 1 else 0))
      | some (.str s) =>
        match pf s with
        | some q => .ok (some q)
        | none => .ok none
      | some (.arr _) => .error .typeError
      | some (.obj _) => .error .typeError
    | _ => .error .attributeError

/-- The fan configuration of the specified scenarios. -/
def exampleConfig : FanConfig :=
  { gpio_pin := 13, min_temp := 40, max_temp := 70,
    min_speed := 30, max_speed := 100 }

/-- A store with a single node whose latest reading is 55 degrees. -/
def exampleStore55 : Store := [("node1", [⟨"t1", 55, 1⟩])]

/-- A store with node A at 35 degrees and node B at 72 degrees. -/
def exampleStoreAB : Store :=
  [("A", [⟨"t1", 35, 1⟩]), ("B", [⟨"t2", 72, 2⟩])]

/-- A concrete node used to instantiate universally quantified theorems. -/
def exampleNode : Node :=
  { name := "node1", slot := 1, ip := "192.168.0.100", port := 5000,
    enabled := true }

/-! ### Facts about truncation toward zero -/

lemma ratTrunc_eq_floor {q : ℚ} (h : 0 ≤ q) : ratTrunc q = ⌊q⌋ := by
  rw [ratTrunc, Rat.floor_def]
  exact Int.tdiv_eq_ediv (Rat.num_nonneg.mpr h) (Int.natCast_nonneg q.den)

lemma ratTrunc_neg (q : ℚ) : ratTrunc (-q) = -ratTrunc q := by
  rw [ratTrunc, ratTrunc, Rat.neg_num, Rat.neg_den, Int.neg_tdiv]

lemma ratTrunc_eq_ceil {q : ℚ} (h : q ≤ 0) : ratTrunc q = ⌈q⌉ := by
  have h2 : 0 ≤ -q := neg_nonneg.mpr h
  have h3 := ratTrunc_eq_floor h2
  rw [ratTrunc_neg, Int.floor_neg] at h3
  omega

lemma ratTrunc_intCast (n : ℤ) : ratTrunc (n : ℚ) = n := by
  rw [ratTrunc, Rat.num_intCast, Rat.den_intCast]
  exact_mod_cast Int.tdiv_one n

lemma ratTrunc_mono {a b : ℚ} (h : a ≤ b) : ratTrunc a ≤ ratTrunc b := by
  rcases le_or_lt 0 a with ha | ha
  · rw [ratTrunc_eq_floor ha, ratTrunc_eq_floor (ha.trans h)]
    exact Int.floor_mono h
  · rcases le_or_lt 0 b with hb | hb
    · rw [ratTrunc_eq_ceil ha.le, ratTrunc_eq_floor hb]
      have h1 : ⌈a⌉ ≤ 0 := Int.ceil_le.mpr (by exact_mod_cast ha.le)
      have h2 : 0 ≤ ⌊b⌋ := Int.floor_nonneg.mpr hb
      omega
    · rw [ratTrunc_eq_ceil ha.le, ratTrunc_eq_ceil hb.le]
      exact Int.ceil_mono h

lemma intCast_le_ratTrunc {n : ℤ} {q : ℚ} (h : (n : ℚ) ≤ q) :
    n ≤ ratTrunc q := by
  have h2 := ratTrunc_mono h
  rwa [ratTrunc_intCast] at h2

lemma ratTrunc_le_intCast {n : ℤ} {q : ℚ} (h : q ≤ (n : ℚ)) :
    ratTrunc q ≤ n := by
  have h2 := ratTrunc_mono h
  rwa [ratTrunc_intCast] at h2

/-! ### C1: linear interpolation of the fan speed -/

/-- C1: for every fan configuration with `min_temp < max_temp` and
`min_speed ≤ max_speed` and every current maximum temperature `T` with
`min_temp ≤ T ≤ max_temp`, the fan-speed computation yields
`speed = int(min_speed + (max_speed - min_speed) * (T - min_temp) /
(max_temp - min_temp))`, truncated toward zero, and the emitted duty is
`speed * 10000`; in particular a single node at 55 with configuration
`min_temp 40, max_temp 70, min_speed 30, max_speed 100` gives speed 65 and
duty 650000. -/
theorem fan_speed_linear_interpolation (fc : FanConfig) (T : ℚ)
    (hT : fc.min_temp < fc.max_temp) (hS : fc.min_speed ≤ fc.max_speed)
    (h1 : (fc.min_temp : ℚ) ≤ T) (h2 : T ≤ (fc.max_temp : ℚ)) :
    compute_speed fc (some T) =
      ratTrunc ((fc.min_speed : ℚ) +
        ((fc.max_speed : ℚ) - (fc.min_speed : ℚ)) * (T - (fc.min_temp : ℚ)) /
          ((fc.max_temp : ℚ) - (fc.min_temp : ℚ))) ∧
    compute_duty fc (some T) = compute_speed fc (some T) * 10000 ∧
    compute_speed exampleConfig (current_max_temp exampleStore55) = 65 ∧
    set_fan_speed_duty exampleConfig exampleStore55 = 650000 := by
  refine ⟨?_, rfl, ?_, ?_⟩
  · simp only [compute_speed]
    rw [if_neg (not_lt.mpr h1), if_neg (not_lt.mpr h2)]
  · norm_num [compute_speed, current_max_temp, exampleConfig, exampleStore55,
      ratTrunc]
  · norm_num [set_fan_speed_duty, compute_duty, compute_speed,
      current_max_temp, exampleConfig, exampleStore55, ratTrunc]

/-- Witness for C1 at the configuration and temperature of the scenario. -/
theorem fan_speed_linear_interpolation_witness :
    compute_speed exampleConfig (some 55) =
      ratTrunc ((exampleConfig.min_speed : ℚ) +
        ((exampleConfig.max_speed : ℚ) - (exampleConfig.min_speed : ℚ)) *
          ((55 : ℚ) - (exampleConfig.min_temp : ℚ)) /
          ((exampleConfig.max_temp : ℚ) - (exampleConfig.min_temp : ℚ))) ∧
    compute_duty exampleConfig (some 55) =
      compute_speed exampleConfig (some 55) * 10000 ∧
    compute_speed exampleConfig (current_max_temp exampleStore55) = 65 ∧
    set_fan_speed_duty exampleConfig exampleStore55 = 650000 :=
  fan_speed_linear_interpolation exampleConfig 55 (by decide) (by decide)
    (by decide) (by decide)

/-! ### C2: exact clamping at and outside the configured range -/

/-- C2: for every fan configuration with `min_temp < max_temp` and
`min_speed ≤ max_speed`, the speed computation clamps exactly: below
`min_temp` and at `min_temp` it yields `min_speed`, above `max_temp` and at
`max_temp` it yields `max_speed`; in particular with latest temperatures 35
and 72 and the example configuration the maximum 72 clamps to speed 100 and
duty 1000000. -/
theorem fan_speed_clamping (fc : FanConfig) (T : ℚ)
    (hT : fc.min_temp < fc.max_temp) (hS : fc.min_speed ≤ fc.max_speed) :
    (T < (fc.min_temp : ℚ) → compute_speed fc (some T) = fc.min_speed) ∧
    ((fc.max_temp : ℚ) < T → compute_speed fc (some T) = fc.max_speed) ∧
    compute_speed fc (some ((fc.min_temp : ℤ) : ℚ)) = fc.min_speed ∧
    compute_speed fc (some ((fc.max_temp : ℤ) : ℚ)) = fc.max_speed ∧
    current_max_temp exampleStoreAB = some 72 ∧
    compute_speed exampleConfig (current_max_temp exampleStoreAB) = 100 ∧
    set_fan_speed_duty exampleConfig exampleStoreAB = 1000000 := by
  have hTQ : ((fc.min_temp : ℤ) : ℚ) < ((fc.max_temp : ℤ) : ℚ) := by
    exact_mod_cast hT
  refine ⟨?_, ?_, ?_, ?_, ?_, ?_, ?_⟩
  · intro h
    simp only [compute_speed]
    rw [if_pos h]
  · intro h
    simp only [compute_speed]
    rw [if_neg (not_lt.mpr (le_of_lt (lt_of_le_of_lt (by exact_mod_cast hT.le) h))),
      if_pos h]
  · simp only [compute_speed]
    rw [if_neg (lt_irrefl _), if_neg (not_lt.mpr hTQ.le)]
    rw [sub_self, mul_zero, zero_div, add_zero, ratTrunc_intCast]
  · have hne : ((fc.max_temp : ℤ) : ℚ) - ((fc.min_temp : ℤ) : ℚ) ≠ 0 :=
      sub_ne_zero.mpr (ne_of_gt hTQ)
    simp only [compute_speed]
    rw [if_neg (not_lt.mpr hTQ.le), if_neg (lt_irrefl _)]
    rw [mul_div_assoc, div_self hne, mul_one, add_sub_cancel, ratTrunc_intCast]
  · norm_num [current_max_temp, exampleStoreAB]
  · norm_num [compute_speed, current_max_temp, exampleConfig, exampleStoreAB]
  · norm_num [set_fan_speed_duty, compute_duty, compute_speed,
      current_max_temp, exampleConfig, exampleStoreAB]

/-- Witness for C2 at the configuration of the scenario and a temperature
below the range. -/
theorem fan_speed_clamping_witness :
    compute_speed exampleConfig (some 35) = exampleConfig.min_speed :=
  (fan_speed_clamping exampleConfig 35 (by decide) (by decide)).1 (by decide)

/-! ### C6: empty store falls back to the minimum speed -/

/-- C6: when the store is completely empty the sentinel maximum stays
`float("-inf")` (here `none`), which compares below `min_temp`, so the
computation still runs and emits speed `min_speed` and duty
`min_speed * 10000`. -/
theorem empty_store_emits_min_speed (fc : FanConfig) :
    current_max_temp [] = none ∧
    compute_speed fc none = fc.min_speed ∧
    compute_duty fc none = fc.min_speed * 10000 ∧
    set_fan_speed_duty fc [] = fc.min_speed * 10000 :=
  ⟨rfl, rfl, rfl, rfl⟩

/-! ### C4: the duty cycle is non-decreasing in the temperature -/

lemma interp_ge_min (fc : FanConfig) (hS : fc.min_speed ≤ fc.max_speed)
    {t : ℚ} (hT : (fc.min_temp : ℚ) < (fc.max_temp : ℚ))
    (h1 : (fc.min_temp : ℚ) ≤ t) :
    (fc.min_speed : ℚ) ≤
      (fc.min_speed : ℚ) +
        ((fc.max_speed : ℚ) - (fc.min_speed : ℚ)) * (t - (fc.min_temp : ℚ)) /
          ((fc.max_temp : ℚ) - (fc.min_temp : ℚ)) := by
  have hΔt : (0 : ℚ) < (fc.max_temp : ℚ) - (fc.min_temp : ℚ) := sub_pos.mpr hT
  have hΔs : (0 : ℚ) ≤ (fc.max_speed : ℚ) - (fc.min_speed : ℚ) := by
    rw [sub_nonneg]
    exact_mod_cast hS
  have hnum : (0 : ℚ) ≤
      ((fc.max_speed : ℚ) - (fc.min_speed : ℚ)) * (t - (fc.min_temp : ℚ)) :=
    mul_nonneg hΔs (sub_nonneg.mpr h1)
  exact le_add_of_nonneg_right (div_nonneg hnum hΔt.le)

lemma interp_le_max (fc : FanConfig) (hS : fc.min_speed ≤ fc.max_speed)
    {t : ℚ} (hT : (fc.min_temp : ℚ) < (fc.max_temp : ℚ))
    (h2 : t ≤ (fc.max_temp : ℚ)) :
    (fc.min_speed : ℚ) +
        ((fc.max_speed : ℚ) - (fc.min_speed : ℚ)) * (t - (fc.min_temp : ℚ)) /
          ((fc.max_temp : ℚ) - (fc.min_temp : ℚ)) ≤
      (fc.max_speed : ℚ) := by
  have hΔt : (0 : ℚ) < (fc.max_temp : ℚ) - (fc.min_temp : ℚ) := sub_pos.mpr hT
  have hΔs : (0 : ℚ) ≤ (fc.max_speed : ℚ) - (fc.min_speed : ℚ) := by
    rw [sub_nonneg]
    exact_mod_cast hS
  have hkey : ((fc.max_speed : ℚ) - (fc.min_speed : ℚ)) * (t - (fc.min_temp : ℚ)) /
      ((fc.max_temp : ℚ) - (fc.min_temp : ℚ)) ≤
      (fc.max_speed : ℚ) - (fc.min_speed : ℚ) := by
    rw [div_le_iff₀ hΔt]
    exact mul_le_mul_of_nonneg_left (by linarith) hΔs
  linarith

lemma interp_mono (fc : FanConfig) (hS : fc.min_speed ≤ fc.max_speed)
    {t1 t2 : ℚ} (hT : (fc.min_temp : ℚ) < (fc.max_temp : ℚ)) (h : t1 ≤ t2) :
    (fc.min_speed : ℚ) +
        ((fc.max_speed : ℚ) - (fc.min_speed : ℚ)) * (t1 - (fc.min_temp : ℚ)) /
          ((fc.max_temp : ℚ) - (fc.min_temp : ℚ)) ≤
      (fc.min_speed : ℚ) +
        ((fc.max_speed : ℚ) - (fc.min_speed : ℚ)) * (t2 - (fc.min_temp : ℚ)) /
          ((fc.max_temp : ℚ) - (fc.min_temp : ℚ)) := by
  have hΔt : (0 : ℚ) < (fc.max_temp : ℚ) - (fc.min_temp : ℚ) := sub_pos.mpr hT
  have hΔs : (0 : ℚ) ≤ (fc.max_speed : ℚ) - (fc.min_speed : ℚ) := by
    rw [sub_nonneg]
    exact_mod_cast hS
  have hstep := (div_le_div_iff_of_pos_right hΔt).mpr
    (mul_le_mul_of_nonneg_left (by linarith : t1 - (fc.min_temp : ℚ) ≤
      t2 - (fc.min_temp : ℚ)) hΔs)
  linarith

lemma compute_speed_mono (fc : FanConfig) (hT : fc.min_temp < fc.max_temp)
    (hS : fc.min_speed ≤ fc.max_speed) {t1 t2 : ℚ} (h : t1 ≤ t2) :
    compute_speed fc (some t1) ≤ compute_speed fc (some t2) := by
  have hTQ : ((fc.min_temp : ℤ) : ℚ) < ((fc.max_temp : ℤ) : ℚ) := by
    exact_mod_cast hT
  simp only [compute_speed]
  by_cases c1 : t1 < (fc.min_temp : ℚ)
  · rw [if_pos c1]
    by_cases c2 : t2 < (fc.min_temp : ℚ)
    · rw [if_pos c2]
    · rw [if_neg c2]
      by_cases c3 : (fc.max_temp : ℚ) < t2
      · rw [if_pos c3]
        exact hS
      · rw [if_neg c3]
        exact intCast_le_ratTrunc (interp_ge_min fc hS hTQ (not_lt.mp c2))
  · rw [if_neg c1]
    have h1 : (fc.min_temp : ℚ) ≤ t1 := not_lt.mp c1
    rw [if_neg (not_lt.mpr (h1.trans h))]
    by_cases c3 : (fc.max_temp : ℚ) < t1
    · rw [if_pos c3, if_pos (lt_of_lt_of_le c3 h)]
    · rw [if_neg c3]
      by_cases c4 : (fc.max_temp : ℚ) < t2
      · rw [if_pos c4]
        exact ratTrunc_le_intCast (interp_le_max fc hS hTQ (not_lt.mp c3))
      · rw [if_neg c4]
        exact ratTrunc_mono (interp_mono fc hS hTQ h)

/-- C4: for every fixed fan configuration with `min_temp < max_temp` and
`min_speed ≤ max_speed`, the computed duty cycle is non-decreasing in the
current maximum temperature, across both clamp boundaries and through the
integer truncation of the interpolated speed. -/
theorem duty_cycle_monotone (fc : FanConfig) (T1 T2 : ℚ)
    (hT : fc.min_temp < fc.max_temp) (hS : fc.min_speed ≤ fc.max_speed)
    (h : T1 ≤ T2) :
    compute_duty fc (some T1) ≤ compute_duty fc (some T2) :=
  mul_le_mul_of_nonneg_right (compute_speed_mono fc hT hS h) (by norm_num)

/-- Witness for C4 across the lower clamp boundary of the scenario
configuration. -/
theorem duty_cycle_monotone_witness :
    compute_duty exampleConfig (some 35) ≤ compute_duty exampleConfig (some 55) :=
  duty_cycle_monotone exampleConfig 35 55 (by decide) (by decide) (by decide)

/-! ### Dict lemmas and the store-update characterization -/

lemma lookup_dictSet_self (s : Store) (k : String) (v : List Sample) :
    lookupStore (dictSet s k v) k = some v := by
  induction s with
  | nil => simp [dictSet, lookupStore]
  | cons p rest ih =>
    obtain ⟨k', v'⟩ := p
    by_cases hk : k' = k
    · simp [dictSet, hk, lookupStore]
    · simp [dictSet, hk, lookupStore, ih]

lemma lookup_dictSet_ne (s : Store) {k y : String} (hne : y ≠ k)
    (v : List Sample) :
    lookupStore (dictSet s k v) y = lookupStore s y := by
  have hky : ¬ k = y := fun h => hne h.symm
  induction s with
  | nil => simp [dictSet, lookupStore, hky]
  | cons p rest ih =>
    obtain ⟨k', v'⟩ := p
    by_cases hk : k' = k
    · subst hk
      simp [dictSet, lookupStore, hky]
    · simp only [dictSet, if_neg hk, lookupStore]
      by_cases hy : k' = y
      · rw [if_pos hy, if_pos hy]
      · rw [if_neg hy, if_neg hy, ih]

lemma lookup_store_temperature_data_self (store : Store) (node : Node)
    (ts : String) (temp : ℚ) :
    lookupStore (store_temperature_data store node ts temp) node.name =
      some (
        if (((lookupStore store node.name).getD []) ++
            [Sample.mk ts temp node.slot]).length > 100 then
          (((lookupStore store node.name).getD []) ++
            [Sample.mk ts temp node.slot]).drop
            ((((lookupStore store node.name).getD []) ++
              [Sample.mk ts temp node.slot]).length - 100)
        else
          ((lookupStore store node.name).getD []) ++
            [Sample.mk ts temp node.slot]) := by
  unfold store_temperature_data
  cases hl : lookupStore store node.name with
  | none =>
    simp only [hl, Option.isSome_none, Bool.false_eq_true, if_false,
      lookup_dictSet_self, Option.getD_some, Option.getD_none]
  | some l =>
    simp only [hl, Option.isSome_some, if_true, Option.getD_some,
      lookup_dictSet_self]

lemma lookup_store_temperature_data_ne (store : Store) (node : Node)
    (ts : String) (temp : ℚ) {y : String} (hy : y ≠ node.name) :
    lookupStore (store_temperature_data store node ts temp) y =
      lookupStore store y := by
  unfold store_temperature_data
  cases hl : lookupStore store node.name with
  | none =>
    simp only [hl, Option.isSome_none, Bool.false_eq_true, if_false]
    rw [lookup_dictSet_ne _ hy, lookup_dictSet_ne _ hy]
  | some l =>
    simp only [hl, Option.isSome_some, if_true]
    rw [lookup_dictSet_ne _ hy]

/-! ### C3: histories stay capped at 100 with FIFO eviction -/

lemma store_temperature_data_preserves_cap (store : Store) (node : Node)
    (ts : String) (temp : ℚ)
    (hinv : ∀ n, ((lookupStore store n).getD []).length ≤ 100) :
    ∀ n, ((lookupStore (store_temperature_data store node ts temp) n).getD
      []).length ≤ 100 := by
  intro n
  by_cases hn : n = node.name
  · subst hn
    rw [lookup_store_temperature_data_self]
    by_cases hlen : (((lookupStore store node.name).getD []) ++
        [Sample.mk ts temp node.slot]).length > 100
    · rw [if_pos hlen]
      simp only [Option.getD_some, List.length_drop]
      omega
    · rw [if_neg hlen]
      simp only [Option.getD_some]
      omega
  · rw [lookup_store_temperature_data_ne _ _ _ _ hn]
    exact hinv n

lemma runRecords_preserves_cap (ops : List (Node × String × ℚ)) :
    ∀ store : Store,
      (∀ n, ((lookupStore store n).getD []).length ≤ 100) →
      ∀ n, ((lookupStore (runRecords store ops) n).getD []).length ≤ 100 := by
  induction ops with
  | nil =>
    intro store hinv n
    exact hinv n
  | cons op rest ih =>
    intro store hinv n
    obtain ⟨nd, ts, temp⟩ := op
    exact ih (store_temperature_data store nd ts temp)
      (store_temperature_data_preserves_cap store nd ts temp hinv) n

/-- C3: starting from the empty store, after any sequence of
`_store_temperature_data` calls every history holds at most 100 samples;
moreover each call appends the new sample at the end of the history of the
recorded node and, when the length would exceed 100, drops entries from the
front until exactly 100 remain (FIFO, surviving samples keep their order as
a suffix of the appended history). -/
theorem history_capped_fifo :
    (∀ (ops : List (Node × String × ℚ)) (n : String),
      ((lookupStore (runRecords [] ops) n).getD []).length ≤ 100) ∧
    (∀ (store : Store) (node : Node) (ts : String) (temp : ℚ),
      lookupStore (store_temperature_data store node ts temp) node.name =
        some (
          if ((lookupStore store node.name).getD []).length + 1 ≤ 100 then
            ((lookupStore store node.name).getD []) ++
              [Sample.mk ts temp node.slot]
          else
            (((lookupStore store node.name).getD []) ++
              [Sample.mk ts temp node.slot]).drop
              (((lookupStore store node.name).getD []).length + 1 - 100))) ∧
    (∀ (store : Store) (node : Node) (ts : String) (temp : ℚ),
      ((lookupStore store node.name).getD []).length = 100 →
      lookupStore (store_temperature_data store node ts temp) node.name =
        some ((((lookupStore store node.name).getD []).drop 1) ++
          [Sample.mk ts temp node.slot])) := by
  refine ⟨?_, ?_, ?_⟩
  · intro ops n
    refine runRecords_preserves_cap ops [] ?_ n
    intro m
    simp [lookupStore]
  · intro store node ts temp
    rw [lookup_store_temperature_data_self]
    have hlen : (((lookupStore store node.name).getD []) ++
        [Sample.mk ts temp node.slot]).length =
        ((lookupStore store node.name).getD []).length + 1 := by
      simp
    rw [hlen]
    by_cases hc : ((lookupStore store node.name).getD []).length + 1 ≤ 100
    · rw [if_neg (by omega), if_pos hc]
    · rw [if_pos (by omega), if_neg hc]
  · intro store node ts temp hcap
    rw [lookup_store_temperature_data_self]
    have hlen : (((lookupStore store node.name).getD []) ++
        [Sample.mk ts temp node.slot]).length =
        ((lookupStore store node.name).getD []).length + 1 := by
      simp
    rw [hlen, hcap]
    rw [if_pos (by omega)]
    congr 1
    have hdrop : (100 : ℕ) + 1 - 100 = 1 := by norm_num
    rw [hdrop]
    rw [List.drop_append_of_le_length (by omega)]

/-- Witness for C3: one record call on a node holding exactly 100 samples
drops the oldest sample and appends the new one. -/
theorem history_capped_fifo_witness :
    lookupStore
      (store_temperature_data
        [(exampleNode.name, List.replicate 100 (Sample.mk "t0" 20 1))]
        exampleNode "t1" 55)
      exampleNode.name =
      some (((List.replicate 100 (Sample.mk "t0" 20 1)).drop 1) ++
        [Sample.mk "t1" 55 exampleNode.slot]) :=
  history_capped_fifo.2.2
    [(exampleNode.name, List.replicate 100 (Sample.mk "t0" 20 1))]
    exampleNode "t1" 55 (by simp [lookupStore])

/-! ### C10: recording one node leaves every other node unchanged -/

/-- C10: for every store and every node name `y` different from the
recorded node, a `_store_temperature_data` call leaves the entry of `y`
exactly unchanged. -/
theorem record_frames_other_nodes (store : Store) (node : Node) (ts : String)
    (temp : ℚ) (y : String) (hy : y ≠ node.name) :
    lookupStore (store_temperature_data store node ts temp) y =
      lookupStore store y :=
  lookup_store_temperature_data_ne store node ts temp hy

/-- Witness for C10 at a concrete store and distinct node name. -/
theorem record_frames_other_nodes_witness :
    lookupStore (store_temperature_data exampleStoreAB exampleNode "t3" 60)
      "A" = lookupStore exampleStoreAB "A" :=
  record_frames_other_nodes exampleStoreAB exampleNode "t3" 60 "A" (by decide)

/-! ### C7: the latest-temperatures map -/

/-- C7: an entry `(n, e)` appears in the result of
`get_latest_temperatures` exactly when the store has an entry `(n, l)` with
a last sample whose fields form `e`; hence every node with at least one
sample appears, and every reported node has a non-empty history (a node
with zero samples is omitted, never reported as null or zero). -/
theorem latest_temperatures_characterization (store : Store) :
    (∀ (n : String) (e : LatestEntry),
      (n, e) ∈ get_latest_temperatures store ↔
        ∃ l last, (n, l) ∈ store ∧ l.getLast? = some last ∧
          e = LatestEntry.mk last.temperature last.timestamp last.slot) ∧
    (∀ (n : String) (l : List Sample), (n, l) ∈ store → l ≠ [] →
      ∃ e, (n, e) ∈ get_latest_temperatures store) ∧
    (∀ (n : String) (e : LatestEntry), (n, e) ∈ get_latest_temperatures store →
      ∃ l, (n, l) ∈ store ∧ l ≠ []) := by
  have hmain : ∀ (n : String) (e : LatestEntry),
      (n, e) ∈ get_latest_temperatures store ↔
        ∃ l last, (n, l) ∈ store ∧ l.getLast? = some last ∧
          e = LatestEntry.mk last.temperature last.timestamp last.slot := by
    intro n e
    simp only [get_latest_temperatures, List.mem_filterMap,
      Option.map_eq_some', Prod.mk.injEq]
    constructor
    · rintro ⟨⟨n', l⟩, hmem, last, hlast, hn, he⟩
      exact ⟨l, last, hn ▸ hmem, hlast, he.symm⟩
    · rintro ⟨l, last, hmem, hlast, he⟩
      exact ⟨⟨n, l⟩, hmem, last, hlast, rfl, he.symm⟩
  refine ⟨hmain, ?_, ?_⟩
  · intro n l hmem hne
    obtain ⟨last, hlast⟩ := Option.isSome_iff_exists.mp
      (List.getLast?_isSome.mpr hne)
    exact ⟨LatestEntry.mk last.temperature last.timestamp last.slot,
      (hmain n _).mpr ⟨l, last, hmem, hlast, rfl⟩⟩
  · intro n e hmem
    obtain ⟨l, last, hl, hlast, _⟩ := (hmain n e).mp hmem
    refine ⟨l, hl, ?_⟩
    intro hnil
    rw [hnil] at hlast
    simp at hlast

/-- Witness for C7 at a concrete store. -/
theorem latest_temperatures_characterization_witness :
    ("B", LatestEntry.mk 72 "t2" 2) ∈ get_latest_temperatures exampleStoreAB :=
  ((latest_temperatures_characterization exampleStoreAB).1 "B"
    (LatestEntry.mk 72 "t2" 2)).mpr
    ⟨[Sample.mk "t2" 72 2], Sample.mk "t2" 72 2, by decide, rfl, rfl⟩

/-! ### C8: node history with a limit (corrected) -/

/-- A store holding two samples for node `a`, used to exhibit the
behaviour of `get_node_temperature_history` at `limit = 0`. -/
def exampleHistStore : Store :=
  [("a", [Sample.mk "t1" 1 1, Sample.mk "t2" 2 1])]

/-- Counterexample to C8 as stated: with `limit = 0` the Python slice
`data[-0:]` is `data[0:]`, the whole history, so the call returns both
stored samples instead of the last zero samples. -/
theorem history_limit_zero_counterexample :
    get_node_temperature_history exampleHistStore "a" 0 =
      [Sample.mk "t1" 1 1, Sample.mk "t2" 2 1] ∧
    (get_node_temperature_history exampleHistStore "a" 0).length = 2 := by
  constructor
  · rfl
  · rfl

/-- C8 (amended): for every node name, an unknown node yields the empty
sequence for every limit; and for every limit at least 1, a known node
yields the last `min limit count` stored samples in insertion order (the
suffix obtained by dropping `count - limit` from the front).  At
`limit = 0` the call instead returns the entire history. -/
theorem history_returns_last_limit (store : Store) (n : String) (limit : ℤ) :
    (lookupStore store n = none →
      get_node_temperature_history store n limit = []) ∧
    (1 ≤ limit → ∀ l, lookupStore store n = some l →
      get_node_temperature_history store n limit =
        l.drop (l.length - limit.toNat)) := by
  constructor
  · intro h
    simp [get_node_temperature_history, h]
  · intro hlim l hl
    simp only [get_node_temperature_history, hl, pyTailSlice]
    congr 1
    have hneg : -limit < 0 := by omega
    rw [if_pos hneg]
    rcases le_total ((l.length : ℤ) + -limit) 0 with hcase | hcase
    · rw [max_eq_right hcase]
      omega
    · rw [max_eq_left hcase]
      omega

/-- Witness for C8 (amended) at a concrete store, a known and an unknown
node. -/
theorem history_returns_last_limit_witness :
    get_node_temperature_history exampleHistStore "a" 1 =
      ([Sample.mk "t1" 1 1, Sample.mk "t2" 2 1] : List Sample).drop
        (([Sample.mk "t1" 1 1, Sample.mk "t2" 2 1] : List Sample).length -
          (1 : ℤ).toNat) ∧
    get_node_temperature_history exampleHistStore "b" 5 = [] :=
  ⟨(history_returns_last_limit exampleHistStore "a" 1).2 (by decide)
      [Sample.mk "t1" 1 1, Sample.mk "t2" 2 1] (by decide),
    (history_returns_last_limit exampleHistStore "b" 5).1 (by decide)⟩

/-! ### C9: start/stop are no-ops in the matching state -/

/-- C9: `stop_monitoring` on an already-stopped monitor returns the state
unchanged (and, being a total function, raises nothing), so stopping twice
equals stopping once; symmetrically `start_monitoring` is a no-op on a
running monitor. -/
theorem stop_monitoring_idempotent :
    (∀ s : MonitorState, s.is_running = false → stop_monitoring s = s) ∧
    (∀ s : MonitorState,
      stop_monitoring (stop_monitoring s) = stop_monitoring s) ∧
    (∀ s : MonitorState, s.is_running = true → start_monitoring s = s) := by
  refine ⟨?_, ?_, ?_⟩
  · intro s h
    simp [stop_monitoring, h]
  · intro s
    by_cases h : s.is_running
    · simp [stop_monitoring, h]
    · simp [stop_monitoring, h]
  · intro s h
    simp [start_monitoring, h]

/-- Witness for C9 at concrete stopped and running states. -/
theorem stop_monitoring_idempotent_witness :
    stop_monitoring (MonitorState.mk false true false) =
      MonitorState.mk false true false ∧
    start_monitoring (MonitorState.mk true false true) =
      MonitorState.mk true false true :=
  ⟨stop_monitoring_idempotent.1 (MonitorState.mk false true false) rfl,
    stop_monitoring_idempotent.2.2 (MonitorState.mk true false true) rfl⟩

/-! ### C5: single-node poll error handling (corrected) -/

/-- Counterexample to C5 as stated: a successful response whose JSON body
is an object with a `temperature` field holding an array makes
`float(temperature)` raise a `TypeError` that escapes
`_poll_node_temperature` (the `except` clauses catch only the `requests`
exceptions, `ValueError` and `KeyError`), so not every malformed
`temperature` field yields the absent result. -/
theorem poll_temperature_raises_counterexample :
    poll_node_temperature (fun _ => none)
      (HttpOutcome.success (Json.obj [("temperature", Json.arr [])])) =
      Except.error PyError.typeError := rfl

/-- C5 (amended): a timeout, connection error, other request error
(including a non-2xx status), or an unparseable JSON body returns `None`;
with an object body, a missing or null `temperature` returns `None`, a
numeric or boolean `temperature` returns its float value, and a string
`temperature` returns the parsed value, or `None` when parsing raises
`ValueError`.  However, a non-object JSON body raises `AttributeError`
and an array- or object-valued `temperature` raises `TypeError` past the
function boundary (both are caught by the caller `_poll_all_nodes`). -/
theorem poll_temperature_behavior (pf : String → Option ℚ) :
    poll_node_temperature pf HttpOutcome.timeout = Except.ok none ∧
    poll_node_temperature pf HttpOutcome.connError = Except.ok none ∧
    poll_node_temperature pf HttpOutcome.requestError = Except.ok none ∧
    poll_node_temperature pf HttpOutcome.invalidJson = Except.ok none ∧
    (∀ fields, jsonLookup fields ("temperature") = none →
      poll_node_temperature pf (HttpOutcome.success (Json.obj fields)) =
        Except.ok none) ∧
    (∀ fields, jsonLookup fields ("temperature") = some Json.null →
      poll_node_temperature pf (HttpOutcome.success (Json.obj fields)) =
        Except.ok none) ∧
    (∀ fields q, jsonLookup fields ("temperature") = some (Json.num q) →
      poll_node_temperature pf (HttpOutcome.success (Json.obj fields)) =
        Except.ok (some q)) ∧
    (∀ fields b, jsonLookup fields ("temperature") = some (Json.bool b) →
      poll_node_temperature pf (HttpOutcome.success (Json.obj fields)) =
        Except.ok (some (if b then 1 else 0))) ∧
    (∀ fields s, jsonLookup fields ("temperature") = some (Json.str s) →
      poll_node_temperature pf (HttpOutcome.success (Json.obj fields)) =
        Except.ok (pf s)) ∧
    (∀ fields elems,
      jsonLookup fields ("temperature") = some (Json.arr elems) →
      poll_node_temperature pf (HttpOutcome.success (Json.obj fields)) =
        Except.error PyError.typeError) ∧
    (∀ fields kvs, jsonLookup fields ("temperature") = some (Json.obj kvs) →
      poll_node_temperature pf (HttpOutcome.success (Json.obj fields)) =
        Except.error PyError.typeError) ∧
    (∀ body : Json, (∀ fields, body ≠ Json.obj fields) →
      poll_node_temperature pf (HttpOutcome.success body) =
        Except.error PyError.attributeError) := by
  refine ⟨rfl, rfl, rfl, rfl, ?_, ?_, ?_, ?_, ?_, ?_, ?_, ?_⟩
  · intro fields h
    simp [poll_node_temperature, h]
  · intro fields h
    simp [poll_node_temperature, h]
  · intro fields q h
    simp [poll_node_temperature, h]
  · intro fields b h
    simp [poll_node_temperature, h]
  · intro fields s h
    simp only [poll_node_temperature, h]
    cases pf s with
    | none => rfl
    | some q => rfl
  · intro fields elems h
    simp [poll_node_temperature, h]
  · intro fields kvs h
    simp [poll_node_temperature, h]
  · intro body hbody
    cases body with
    | null => rfl
    | bool b => rfl
    | num q => rfl
    | str s => rfl
    | arr elems => rfl
    | obj fields => exact absurd rfl (hbody fields)

/-- Witness for C5 (amended) at concrete outcomes. -/
theorem poll_temperature_behavior_witness :
    poll_node_temperature (fun _ => none) HttpOutcome.timeout =
      Except.ok none ∧
    poll_node_temperature (fun _ => none)
      (HttpOutcome.success (Json.obj [("temperature", Json.num 55)])) =
      Except.ok (some 55) ∧
    poll_node_temperature (fun _ => none) (HttpOutcome.success Json.null) =
      Except.error PyError.attributeError :=
  ⟨(poll_temperature_behavior (fun _ => none)).1,
    (poll_temperature_behavior (fun _ => none)).2.2.2.2.2.2.1
      [("temperature", Json.num 55)] 55 rfl,
    (poll_temperature_behavior (fun _ => none)).2.2.2.2.2.2.2.2.2.2.2
      Json.null (fun fields h => Json.noConfusion h)⟩

end NanoCluster
